import Mathlib

/-!
# SpeechSynthesisResult (src/src/speech/speech_synthesis_result.h)

A shallow embedding of the C++ wrapper class `SpeechSynthesisResult`: its
constructor, its accessors and its destructor, over a native C API that is taken
as a parameter (`NativeApi`).  Every native call the class makes is recorded in an
explicit trace (`List NativeCall`), so that call order, call counts and the
release of the handle can be stated.

Machine integers are natural numbers reduced modulo `2^w` where the source stores
them in a `w`-bit variable; bytes are `Fin 256`.
-/

namespace SpeechSynthesis

/-! ## Types of the native layer -/

/-- Native status code (`SPXHR`). -/
abbrev SPXHR := Nat

/-- Opaque result handle (`SPXRESULTHANDLE`). -/
abbrev SPXRESULTHANDLE := Nat

/-- Opaque property-bag handle (`SPXPROPERTYBAGHANDLE`). -/
abbrev SPXPROPERTYBAGHANDLE := Nat

/-- One byte of audio (`uint8_t`). -/
abbrev uint8_t := Fin 256

/-- Number of values of a `uint32_t`. -/
def UINT32_SIZE : Nat := 2 ^ 32

/-- Number of values of a `uint64_t`. -/
def UINT64_SIZE : Nat := 2 ^ 64

/-- The native C API and the header constants the class uses; none of them is
defined in the wrapper's own file, so they are parameters of the embedding.

Each query returns its status code first.  An out-parameter that the source
initialises before the call (`hpropbag`, `audioLength`, `audioDuration`,
`filledSize`) is an `Option`: `none` means the native call left the variable
untouched.  The audio-data query receives the buffer size and returns the bytes
it writes from the start of the buffer. -/
structure NativeApi where
  /-- The test behind `SPX_THROW_ON_FAIL`: is this status code a failure? -/
  SPX_FAILED : SPXHR → Bool
  /-- The constant `SPXHANDLE_INVALID`. -/
  SPXHANDLE_INVALID : SPXPROPERTYBAGHANDLE
  /-- `synth_result_get_property_bag(hresult, &hpropbag)`. -/
  synth_result_get_property_bag : SPXRESULTHANDLE → SPXHR × Option SPXPROPERTYBAGHANDLE
  /-- `synth_result_get_result_id(hresult, sz, maxCharCount)`: the status and the
  C string left in `sz`. -/
  synth_result_get_result_id : SPXRESULTHANDLE → Nat → SPXHR × String
  /-- `synth_result_get_reason(hresult, &resultReason)`. -/
  synth_result_get_reason : SPXRESULTHANDLE → SPXHR × Nat
  /-- `synth_result_get_audio_length_duration(hresult, &audioLength, &audioDuration)`. -/
  synth_result_get_audio_length_duration : SPXRESULTHANDLE → SPXHR × Option Nat × Option Nat
  /-- `synth_result_get_audio_data(hresult, buffer, bufferSize, &filledSize)`: the
  status, the bytes written from the start of `buffer`, and `filledSize`. -/
  synth_result_get_audio_data : SPXRESULTHANDLE → Nat → SPXHR × List uint8_t × Option Nat

/-- A call made to the native API, with the handle it was made on. -/
inductive NativeCall where
  | synth_result_get_property_bag (hresult : SPXRESULTHANDLE)
  | synth_result_get_result_id (hresult : SPXRESULTHANDLE) (maxCharCount : Nat)
  | synth_result_get_reason (hresult : SPXRESULTHANDLE)
  | synth_result_get_audio_length_duration (hresult : SPXRESULTHANDLE)
  | synth_result_get_audio_data (hresult : SPXRESULTHANDLE) (bufferSize : Nat)
  | synthesizer_result_handle_release (hresult : SPXRESULTHANDLE)
  deriving DecidableEq, Repr

/-! ## Library pieces the class uses -/

/-- Modelled from the spec: `Utils::ToSPXString` (speechapi_cxx_string_helpers.h) is
not in src.  It turns the C string in `sz` into an `SPXSTRING`; the spec's scenario
(id "abc123" gives `ResultId == "abc123"`) makes it content preserving. -/
def ToSPXString (sz : String) : String := sz

/-- Conversion of an unsigned 64-bit value to a signed 64-bit one (two's
complement), as `static_cast<int64_t>` does. -/
def toInt64 (v : Nat) : Int :=
  if v % UINT64_SIZE < 2 ^ 63 then ((v % UINT64_SIZE : Nat) : Int)
  else ((v % UINT64_SIZE : Nat) : Int) - (UINT64_SIZE : Int)

/-- Modelled from the spec: `std::chrono::milliseconds` is the C++ standard
library's millisecond duration, not in src; the spec calls it a duration in
milliseconds.  Its tick count is a signed 64-bit integer, so constructing it from
a `uint64_t` converts the value to `int64_t`.  The result is the tick count. -/
def milliseconds (audioDuration : Nat) : Int := toInt64 audioDuration

/-- Modelled from the spec: `PropertyCollection` (speechapi_cxx_properties.h) is not
in src; the spec describes it as a view backed by the handle's property bag.  It
keeps the property-bag handle it is constructed from. -/
structure PropertyCollection where
  m_propbag : SPXPROPERTYBAGHANDLE
  deriving DecidableEq, Repr

/-- Modelled from the spec: the macro `SPX_THROW_ON_FAIL` (speechapi_cxx_common.h) is
not in src; per the spec a failing query is propagated as an exception carrying
the native failure code. -/
def SPX_THROW_ON_FAIL (api : NativeApi) (hr : SPXHR) : Except SPXHR Unit :=
  if api.SPX_FAILED hr then Except.error hr else Except.ok ()

/-- The constructor of `std::vector<uint8_t>` with a size: that many zero bytes. -/
def make_vector (audioLength : Nat) : List uint8_t := List.replicate audioLength 0

/-- The buffer after a native call wrote `written` from its start: the write is
cut at the end of the buffer and the bytes behind it keep their value. -/
def writeBuffer (buffer written : List uint8_t) : List uint8_t :=
  written.take buffer.length ++ buffer.drop written.length

/-! ## The class -/

/-- The data members of `SpeechSynthesisResult`.  The public reference members
`ResultId`, `Reason`, `AudioDuration` and `Properties` alias the private ones and
are the accessor functions below. -/
structure SpeechSynthesisResult where
  m_hresult : SPXRESULTHANDLE
  m_properties : PropertyCollection
  m_resultId : String
  m_reason : Nat
  m_audioData : List uint8_t
  m_audioDuration : Int
  deriving DecidableEq, Repr

/-- Constructor of the nested class `PrivatePropertyCollection`: retrieves the
property bag of the handle, starting from `SPXHANDLE_INVALID`; the status code of
the retrieval is discarded. -/
def PrivatePropertyCollection (api : NativeApi) (hresult : SPXRESULTHANDLE) :
    List NativeCall × PropertyCollection :=
  let hpropbag := api.SPXHANDLE_INVALID
  let r := api.synth_result_get_property_bag hresult
  let hpropbag := r.2.getD hpropbag
  ([NativeCall.synth_result_get_property_bag hresult], { m_propbag := hpropbag })

/-- The constant `maxCharCount` of the constructor body. -/
def maxCharCount : Nat := 1024

/-- The constructor `SpeechSynthesisResult(SPXRESULTHANDLE hresult)`.

Returns the native calls made, in order, and either the constructed object or the
status code thrown.  The member initialisers run first, in declaration order:
`m_hresult`, then `m_properties` (which retrieves the property bag); the body
follows. -/
def construct (api : NativeApi) (hresult : SPXRESULTHANDLE) :
    List NativeCall × Except SPXHR SpeechSynthesisResult :=
  let m_hresult := hresult
  let p := PrivatePropertyCollection api hresult
  let t0 := p.1
  let m_properties := p.2
  -- SPX_THROW_ON_FAIL(synth_result_get_result_id(hresult, sz, maxCharCount));
  let rid := api.synth_result_get_result_id hresult maxCharCount
  let t1 := t0 ++ [NativeCall.synth_result_get_result_id hresult maxCharCount]
  match SPX_THROW_ON_FAIL api rid.1 with
  | Except.error e => (t1, Except.error e)
  | Except.ok _ =>
  let m_resultId := ToSPXString rid.2
  -- SPX_THROW_ON_FAIL(synth_result_get_reason(hresult, &resultReason));
  let rr := api.synth_result_get_reason hresult
  let t2 := t1 ++ [NativeCall.synth_result_get_reason hresult]
  match SPX_THROW_ON_FAIL api rr.1 with
  | Except.error e => (t2, Except.error e)
  | Except.ok _ =>
  let m_reason := rr.2
  -- uint32_t audioLength = 0; uint64_t audioDuration = 0;
  let ld := api.synth_result_get_audio_length_duration m_hresult
  let t3 := t2 ++ [NativeCall.synth_result_get_audio_length_duration m_hresult]
  let audioLength := (ld.2.1.getD 0) % UINT32_SIZE
  let audioDuration := (ld.2.2.getD 0) % UINT64_SIZE
  match SPX_THROW_ON_FAIL api ld.1 with
  | Except.error e => (t3, Except.error e)
  | Except.ok _ =>
  let m_audioDuration := milliseconds audioDuration
  let m_audioData := make_vector audioLength
  if 0 < audioLength then
    -- uint32_t filledSize = 0;
    let ad := api.synth_result_get_audio_data m_hresult audioLength
    let t4 := t3 ++ [NativeCall.synth_result_get_audio_data m_hresult audioLength]
    let m_audioData := writeBuffer m_audioData ad.2.1
    match SPX_THROW_ON_FAIL api ad.1 with
    | Except.error e => (t4, Except.error e)
    | Except.ok _ =>
      (t4, Except.ok { m_hresult := m_hresult, m_properties := m_properties,
                       m_resultId := m_resultId, m_reason := m_reason,
                       m_audioData := m_audioData, m_audioDuration := m_audioDuration })
  else
    (t3, Except.ok { m_hresult := m_hresult, m_properties := m_properties,
                     m_resultId := m_resultId, m_reason := m_reason,
                     m_audioData := m_audioData, m_audioDuration := m_audioDuration })

/-- `GetAudioLength()`: the size of the audio buffer, cast to `uint32_t`. -/
def SpeechSynthesisResult.GetAudioLength (self : SpeechSynthesisResult) : Nat :=
  self.m_audioData.length % UINT32_SIZE

/-- `GetAudioData()`: the audio buffer. -/
def SpeechSynthesisResult.GetAudioData (self : SpeechSynthesisResult) : List uint8_t :=
  self.m_audioData

/-- `explicit operator SPXRESULTHANDLE()`: the handle. -/
def SpeechSynthesisResult.toSPXRESULTHANDLE (self : SpeechSynthesisResult) : SPXRESULTHANDLE :=
  self.m_hresult

/-- The public member `ResultId`, a reference to `m_resultId`. -/
def SpeechSynthesisResult.ResultId (self : SpeechSynthesisResult) : String :=
  self.m_resultId

/-- The public member `Reason`, a reference to `m_reason`. -/
def SpeechSynthesisResult.Reason (self : SpeechSynthesisResult) : Nat :=
  self.m_reason

/-- The public member `AudioDuration`, a reference to `m_audioDuration`: the tick
count of the millisecond duration. -/
def SpeechSynthesisResult.AudioDuration (self : SpeechSynthesisResult) : Int :=
  self.m_audioDuration

/-- The public member `Properties`, a reference to `m_properties`. -/
def SpeechSynthesisResult.Properties (self : SpeechSynthesisResult) : PropertyCollection :=
  self.m_properties

/-- The destructor `~SpeechSynthesisResult()`: the native calls it makes. -/
def SpeechSynthesisResult.destroy (self : SpeechSynthesisResult) : List NativeCall :=
  [NativeCall.synthesizer_result_handle_release self.m_hresult]

/-! ## Lifetime of an object -/

/-- The member functions a holder of the object can call. -/
inductive Accessor where
  | GetAudioLength
  | GetAudioData
  | toSPXRESULTHANDLE
  deriving DecidableEq, Repr

/-- What a member function returns. -/
inductive AccessorValue where
  | length (n : Nat)
  | data (bytes : List uint8_t)
  | handle (hresult : SPXRESULTHANDLE)
  deriving DecidableEq, Repr

/-- One call of a member function: the native calls it makes (none of the three
makes any) and the value it returns.  No member is assigned. -/
def SpeechSynthesisResult.call (self : SpeechSynthesisResult) :
    Accessor → List NativeCall × AccessorValue
  | Accessor.GetAudioLength => ([], AccessorValue.length self.GetAudioLength)
  | Accessor.GetAudioData => ([], AccessorValue.data self.GetAudioData)
  | Accessor.toSPXRESULTHANDLE => ([], AccessorValue.handle self.toSPXRESULTHANDLE)

/-- The native calls made by the accessor calls `calls`, in order. -/
def accessorTrace (self : SpeechSynthesisResult) : List Accessor → List NativeCall
  | [] => []
  | a :: rest => (self.call a).1 ++ accessorTrace self rest

/-- All native calls made by the class over the life of one object: construction
from `hresult`, the accessor calls `calls`, destruction.  When the constructor
throws, the object never existed: C++ does not run the destructor of an object
whose constructor did not complete, and there is nothing to call accessors on. -/
def lifetime (api : NativeApi) (hresult : SPXRESULTHANDLE) (calls : List Accessor) :
    List NativeCall :=
  match construct api hresult with
  | (t, Except.ok self) => t ++ accessorTrace self calls ++ self.destroy
  | (t, Except.error _) => t

/-- Is this native call a release of a result handle? -/
def isRelease : NativeCall → Bool
  | NativeCall.synthesizer_result_handle_release _ => true
  | _ => false

/-- Is this native call the audio-bytes query? -/
def isAudioDataQuery : NativeCall → Bool
  | NativeCall.synth_result_get_audio_data _ _ => true
  | _ => false

/-- The value of the local `audioLength` after the length/duration query. -/
def audioLengthOf (api : NativeApi) (hresult : SPXRESULTHANDLE) : Nat :=
  ((api.synth_result_get_audio_length_duration hresult).2.1.getD 0) % UINT32_SIZE

/-! ## Mock native layers -/

/-- A mock native layer that answers every handle with the given replies; status
code 0 is success and the audio query writes at most `bufferSize` bytes. -/
def mockApi (pb : SPXHR × Option SPXPROPERTYBAGHANDLE) (rid : SPXHR × String)
    (rr : SPXHR × Nat) (ld : SPXHR × Option Nat × Option Nat)
    (ad : SPXHR × List uint8_t × Option Nat) : NativeApi where
  SPX_FAILED := fun hr => hr != 0
  SPXHANDLE_INVALID := 2 ^ 64 - 1
  synth_result_get_property_bag := fun _ => pb
  synth_result_get_result_id := fun _ _ => rid
  synth_result_get_reason := fun _ => rr
  synth_result_get_audio_length_duration := fun _ => ld
  synth_result_get_audio_data := fun _ bufferSize => (ad.1, ad.2.1.take bufferSize, ad.2.2)

/-- The scenario of the specification: id "abc123", reason code 9, four bytes of
audio, 250 ms. -/
def scenarioApi : NativeApi :=
  mockApi (0, some 42) (0, "abc123") (0, 9) (0, some 4, some 250) (0, [1, 2, 3, 4], some 4)

/-- A handle with no audio, whose audio-bytes query would fail if it were called. -/
def emptyAudioApi : NativeApi :=
  mockApi (0, some 42) (0, "abc123") (0, 9) (0, some 0, some 0) (5, [], none)

/-- A handle whose duration is `2^63` milliseconds. -/
def longDurationApi : NativeApi :=
  mockApi (0, some 42) (0, "abc123") (0, 9) (0, some 4, some (2 ^ 63)) (0, [1, 2, 3, 4], some 4)

/-- A handle whose property-bag retrieval fails with code 5 and whose other
queries succeed. -/
def propertyBagFailsApi : NativeApi :=
  mockApi (5, none) (0, "abc123") (0, 9) (0, some 4, some 250) (0, [1, 2, 3, 4], some 4)

/-- A handle whose result-id query fails with code 5. -/
def idFailsApi : NativeApi :=
  mockApi (0, some 42) (5, "") (0, 9) (0, some 4, some 250) (0, [1, 2, 3, 4], some 4)

/-- A handle whose audio-bytes query fails with code 6. -/
def audioDataFailsApi : NativeApi :=
  mockApi (0, some 42) (0, "abc123") (0, 9) (0, some 4, some 250) (6, [], none)

/-- A handle that reports four bytes of audio and fills only two. -/
def shortFillApi : NativeApi :=
  mockApi (0, some 42) (0, "abc123") (0, 9) (0, some 4, some 250) (0, [1, 2], some 2)

/-- A handle that reports four bytes of audio and whose audio-bytes query reports
a filled count of two while writing three bytes. -/
def overFillApi : NativeApi :=
  mockApi (0, some 42) (0, "abc123") (0, 9) (0, some 4, some 250) (0, [1, 2, 3], some 2)

/-! ## Query orders -/

/-- The query order as the specification words it: result id, reason, audio
length/duration, audio bytes (only for a positive length), property bag. -/
def specQueryOrder (api : NativeApi) (h : SPXRESULTHANDLE) : List NativeCall :=
  [NativeCall.synth_result_get_result_id h maxCharCount,
   NativeCall.synth_result_get_reason h,
   NativeCall.synth_result_get_audio_length_duration h]
  ++ (if 0 < audioLengthOf api h then
        [NativeCall.synth_result_get_audio_data h (audioLengthOf api h)] else [])
  ++ [NativeCall.synth_result_get_property_bag h]

/-- The query order of the constructor: property bag (from the member
initialiser of `m_properties`), then result id, reason, audio length/duration,
audio bytes (only for a positive length). -/
def codeQueryOrder (api : NativeApi) (h : SPXRESULTHANDLE) : List NativeCall :=
  [NativeCall.synth_result_get_property_bag h,
   NativeCall.synth_result_get_result_id h maxCharCount,
   NativeCall.synth_result_get_reason h,
   NativeCall.synth_result_get_audio_length_duration h]
  ++ (if 0 < audioLengthOf api h then
        [NativeCall.synth_result_get_audio_data h (audioLengthOf api h)] else [])

/-! ## Shape of the constructor -/

/-- The constructor as a chain of tests on the status codes. -/
theorem construct_eq (api : NativeApi) (h : SPXRESULTHANDLE) :
    construct api h =
      if api.SPX_FAILED (api.synth_result_get_result_id h maxCharCount).1 then
        ([NativeCall.synth_result_get_property_bag h,
          NativeCall.synth_result_get_result_id h maxCharCount],
         Except.error (api.synth_result_get_result_id h maxCharCount).1)
      else if api.SPX_FAILED (api.synth_result_get_reason h).1 then
        ([NativeCall.synth_result_get_property_bag h,
          NativeCall.synth_result_get_result_id h maxCharCount,
          NativeCall.synth_result_get_reason h],
         Except.error (api.synth_result_get_reason h).1)
      else if api.SPX_FAILED (api.synth_result_get_audio_length_duration h).1 then
        ([NativeCall.synth_result_get_property_bag h,
          NativeCall.synth_result_get_result_id h maxCharCount,
          NativeCall.synth_result_get_reason h,
          NativeCall.synth_result_get_audio_length_duration h],
         Except.error (api.synth_result_get_audio_length_duration h).1)
      else if 0 < audioLengthOf api h then
        if api.SPX_FAILED (api.synth_result_get_audio_data h (audioLengthOf api h)).1 then
          ([NativeCall.synth_result_get_property_bag h,
            NativeCall.synth_result_get_result_id h maxCharCount,
            NativeCall.synth_result_get_reason h,
            NativeCall.synth_result_get_audio_length_duration h,
            NativeCall.synth_result_get_audio_data h (audioLengthOf api h)],
           Except.error (api.synth_result_get_audio_data h (audioLengthOf api h)).1)
        else
          ([NativeCall.synth_result_get_property_bag h,
            NativeCall.synth_result_get_result_id h maxCharCount,
            NativeCall.synth_result_get_reason h,
            NativeCall.synth_result_get_audio_length_duration h,
            NativeCall.synth_result_get_audio_data h (audioLengthOf api h)],
           Except.ok
            { m_hresult := h
              m_properties := (PrivatePropertyCollection api h).2
              m_resultId := ToSPXString (api.synth_result_get_result_id h maxCharCount).2
              m_reason := (api.synth_result_get_reason h).2
              m_audioData := writeBuffer (make_vector (audioLengthOf api h))
                (api.synth_result_get_audio_data h (audioLengthOf api h)).2.1
              m_audioDuration := milliseconds
                (((api.synth_result_get_audio_length_duration h).2.2.getD 0) % UINT64_SIZE) })
      else
        ([NativeCall.synth_result_get_property_bag h,
          NativeCall.synth_result_get_result_id h maxCharCount,
          NativeCall.synth_result_get_reason h,
          NativeCall.synth_result_get_audio_length_duration h],
         Except.ok
          { m_hresult := h
            m_properties := (PrivatePropertyCollection api h).2
            m_resultId := ToSPXString (api.synth_result_get_result_id h maxCharCount).2
            m_reason := (api.synth_result_get_reason h).2
            m_audioData := make_vector (audioLengthOf api h)
            m_audioDuration := milliseconds
              (((api.synth_result_get_audio_length_duration h).2.2.getD 0) % UINT64_SIZE) }) := by
  unfold construct SPX_THROW_ON_FAIL audioLengthOf
  simp only [PrivatePropertyCollection]
  split_ifs <;> simp_all

/-- A zeroed buffer overwritten at its start holds the written bytes followed by
the zeros that were not overwritten. -/
theorem writeBuffer_short (L : Nat) (written : List uint8_t) (hw : written.length ≤ L) :
    writeBuffer (make_vector L) written
      = written ++ List.replicate (L - written.length) 0 := by
  unfold writeBuffer make_vector
  simp [List.take_of_length_le hw]

/-- A zeroed buffer after a native write: the written bytes, cut at the end of the
buffer, followed by the zeros that were not overwritten. -/
theorem writeBuffer_zeroed (L : Nat) (written : List uint8_t) :
    writeBuffer (make_vector L) written
      = written.take L ++ List.replicate (L - written.length) 0 := by
  unfold writeBuffer make_vector
  simp

/-- Writing into a buffer never changes its length. -/
theorem writeBuffer_length (buffer written : List uint8_t) :
    (writeBuffer buffer written).length = buffer.length := by
  unfold writeBuffer
  simp
  omega

/-- C2: when the id, reason and length/duration queries succeed and the reported
audio length is 0, the constructor succeeds, `GetAudioData()` is the empty
buffer, `GetAudioLength()` is 0, and no audio-bytes query is among the native
calls the constructor made. -/
theorem C2_empty_audio_skips_byte_query (api : NativeApi) (h : SPXRESULTHANDLE)
    (hid : api.SPX_FAILED (api.synth_result_get_result_id h maxCharCount).1 = false)
    (hreason : api.SPX_FAILED (api.synth_result_get_reason h).1 = false)
    (hld : api.SPX_FAILED (api.synth_result_get_audio_length_duration h).1 = false)
    (hlen : (api.synth_result_get_audio_length_duration h).2.1 = some 0) :
    ∃ self, (construct api h).2 = Except.ok self
      ∧ self.GetAudioData = []
      ∧ self.GetAudioLength = 0
      ∧ ∀ c ∈ (construct api h).1, isAudioDataQuery c = false := by
  have hL : audioLengthOf api h = 0 := by
    unfold audioLengthOf
    rw [hlen]
    rfl
  rw [construct_eq]
  simp only [hid, hreason, hld, hL]
  refine ⟨_, rfl, rfl, rfl, ?_⟩
  intro c hc
  simp at hc
  rcases hc with rfl | rfl | rfl | rfl <;> rfl

/-- A handle with no audio whose audio-bytes query would fail: the constructor
succeeds with an empty buffer and never issues that query. -/
theorem C2_empty_audio_skips_byte_query_witness :
    ∃ self, (construct emptyAudioApi 7).2 = Except.ok self
      ∧ self.GetAudioData = []
      ∧ self.GetAudioLength = 0
      ∧ ∀ c ∈ (construct emptyAudioApi 7).1, isAudioDataQuery c = false :=
  C2_empty_audio_skips_byte_query emptyAudioApi 7 rfl rfl rfl rfl

/-! ## Result id, reason and duration -/

/-- C3: when the constructor succeeds, `ResultId` is the string the result-id
query returned and `Reason` is the reason code the reason query returned. -/
theorem C3_result_id_and_reason (api : NativeApi) (h : SPXRESULTHANDLE)
    (self : SpeechSynthesisResult) (hok : (construct api h).2 = Except.ok self) :
    self.ResultId = (api.synth_result_get_result_id h maxCharCount).2
      ∧ self.Reason = (api.synth_result_get_reason h).2 := by
  rw [construct_eq] at hok
  split_ifs at hok <;> simp at hok <;> subst hok <;> exact ⟨rfl, rfl⟩

/-- The scenario of the specification: id "abc123" and reason code 9 are what
the object shows. -/
theorem C3_result_id_and_reason_witness :
    ∃ self, (construct scenarioApi 7).2 = Except.ok self
      ∧ self.ResultId = "abc123" ∧ self.Reason = 9 :=
  ⟨_, rfl, C3_result_id_and_reason scenarioApi 7 _ rfl⟩

/-- C4, as stated, fails: a handle whose length/duration query returns the
unsigned 64-bit duration `2^63` is constructed successfully and its
`AudioDuration` counts `-2^63` milliseconds, not `2^63`. -/
theorem C4_counterexample_duration_wraps :
    ∃ self, (construct longDurationApi 7).2 = Except.ok self
      ∧ (longDurationApi.synth_result_get_audio_length_duration 7).2.2 = some (2 ^ 63)
      ∧ 2 ^ 63 < UINT64_SIZE
      ∧ self.AudioDuration = -(2 ^ 63 : Int)
      ∧ self.AudioDuration ≠ ((2 ^ 63 : Nat) : Int) :=
  ⟨_, rfl, rfl, by decide, by decide, by decide⟩

/-- C4 (amended): when the constructor succeeds and the length/duration query
returned the unsigned 64-bit duration `d`, the tick count of `AudioDuration` is
`d`, unscaled, whenever `d < 2^63`; for `d` from `2^63` on it is `d - 2^64`, the
value read as a signed 64-bit integer. -/
theorem C4_audio_duration (api : NativeApi) (h : SPXRESULTHANDLE)
    (self : SpeechSynthesisResult) (d : Nat)
    (hok : (construct api h).2 = Except.ok self)
    (hd : (api.synth_result_get_audio_length_duration h).2.2 = some d)
    (hu64 : d < UINT64_SIZE) :
    (d < 2 ^ 63 → self.AudioDuration = (d : Int))
      ∧ (2 ^ 63 ≤ d → self.AudioDuration = (d : Int) - (2 ^ 64 : Int)) := by
  have hdur : self.AudioDuration = toInt64 d := by
    rw [construct_eq] at hok
    split_ifs at hok <;> simp at hok <;> subst hok <;>
      simp [SpeechSynthesisResult.AudioDuration, milliseconds, hd, Nat.mod_eq_of_lt hu64]
  rw [hdur]
  unfold toInt64
  rw [Nat.mod_eq_of_lt hu64]
  constructor
  · intro hlt
    rw [if_pos hlt]
  · intro hge
    rw [if_neg (by omega)]
    simp [UINT64_SIZE]

/-- The scenario of the specification: a duration of 250 gives 250 ms. -/
theorem C4_audio_duration_witness :
    ∃ self, (construct scenarioApi 7).2 = Except.ok self ∧ self.AudioDuration = 250 :=
  ⟨_, rfl, (C4_audio_duration scenarioApi 7 _ 250 rfl rfl (by decide)).1 (by decide)⟩

/-! ## Failure of a query -/

/-- C5, as stated, fails: on a handle whose property-bag retrieval returns the
failure code 5 the constructor issues that retrieval and still succeeds.  (This
retrieval wrote no handle, so the collection holds `SPXHANDLE_INVALID`.) -/
theorem C5_counterexample_property_bag_failure_ignored :
    ∃ self, (construct propertyBagFailsApi 7).2 = Except.ok self
      ∧ NativeCall.synth_result_get_property_bag 7 ∈ (construct propertyBagFailsApi 7).1
      ∧ propertyBagFailsApi.SPX_FAILED
          (propertyBagFailsApi.synth_result_get_property_bag 7).1 = true
      ∧ self.Properties.m_propbag = propertyBagFailsApi.SPXHANDLE_INVALID :=
  ⟨_, rfl, by decide, rfl, rfl⟩

/-- C5 (amended): the constructor has no partial success over the queries whose
status it checks.  It succeeds exactly when the result-id, reason and
length/duration queries returned success and, for a positive length, the
audio-bytes query did.  When one of these fails, the constructor fails with the
status code of the first of them to fail, in the order result id, reason,
length/duration, audio bytes.  The status of the property-bag retrieval plays no
part: it never makes the constructor fail, and `Properties` holds the handle the
retrieval left in `hpropbag` (`SPXHANDLE_INVALID` when it wrote none). -/
theorem C5_checked_queries_all_or_nothing (api : NativeApi) (h : SPXRESULTHANDLE) :
    ((∃ self, (construct api h).2 = Except.ok self) ↔
        (api.SPX_FAILED (api.synth_result_get_result_id h maxCharCount).1 = false
        ∧ api.SPX_FAILED (api.synth_result_get_reason h).1 = false
        ∧ api.SPX_FAILED (api.synth_result_get_audio_length_duration h).1 = false
        ∧ (0 < audioLengthOf api h →
            api.SPX_FAILED (api.synth_result_get_audio_data h (audioLengthOf api h)).1 = false)))
    ∧ (api.SPX_FAILED (api.synth_result_get_result_id h maxCharCount).1 = true →
        (construct api h).2 = Except.error (api.synth_result_get_result_id h maxCharCount).1)
    ∧ (api.SPX_FAILED (api.synth_result_get_result_id h maxCharCount).1 = false →
       api.SPX_FAILED (api.synth_result_get_reason h).1 = true →
        (construct api h).2 = Except.error (api.synth_result_get_reason h).1)
    ∧ (api.SPX_FAILED (api.synth_result_get_result_id h maxCharCount).1 = false →
       api.SPX_FAILED (api.synth_result_get_reason h).1 = false →
       api.SPX_FAILED (api.synth_result_get_audio_length_duration h).1 = true →
        (construct api h).2 = Except.error (api.synth_result_get_audio_length_duration h).1)
    ∧ (api.SPX_FAILED (api.synth_result_get_result_id h maxCharCount).1 = false →
       api.SPX_FAILED (api.synth_result_get_reason h).1 = false →
       api.SPX_FAILED (api.synth_result_get_audio_length_duration h).1 = false →
       0 < audioLengthOf api h →
       api.SPX_FAILED (api.synth_result_get_audio_data h (audioLengthOf api h)).1 = true →
        (construct api h).2
          = Except.error (api.synth_result_get_audio_data h (audioLengthOf api h)).1)
    ∧ (∀ self, (construct api h).2 = Except.ok self →
        self.Properties.m_propbag
          = (api.synth_result_get_property_bag h).2.getD api.SPXHANDLE_INVALID) := by
  rw [construct_eq]
  refine ⟨⟨?_, ?_⟩, ?_, ?_, ?_, ?_, ?_⟩
  · rintro ⟨self, hok⟩
    split_ifs at hok <;> simp at hok <;> simp_all
  · rintro ⟨h1, h2, h3, h4⟩
    by_cases hpos : 0 < audioLengthOf api h
    · simp [h1, h2, h3, hpos, h4 hpos]
    · simp [h1, h2, h3, hpos]
  · intro h1
    simp [h1]
  · intro h1 h2
    simp [h1, h2]
  · intro h1 h2 h3
    simp [h1, h2, h3]
  · intro h1 h2 h3 h4 h5
    simp [h1, h2, h3, h4, h5]
  · intro self hok
    split_ifs at hok <;> simp at hok <;> subst hok <;> rfl

/-- On the handle whose audio-bytes query fails with code 6 the constructor
fails with code 6; on the handle whose property-bag retrieval fails with code 5
and whose checked queries succeed, the constructor succeeds. -/
theorem C5_checked_queries_all_or_nothing_witness :
    (construct audioDataFailsApi 7).2 = Except.error 6
      ∧ ∃ self, (construct propertyBagFailsApi 7).2 = Except.ok self :=
  ⟨(C5_checked_queries_all_or_nothing audioDataFailsApi 7).2.2.2.2.1 rfl rfl rfl
      (by decide) rfl,
   (C5_checked_queries_all_or_nothing propertyBagFailsApi 7).1.mpr
      ⟨rfl, rfl, rfl, fun _ => rfl⟩⟩

/-- C6: the constructor fails fast.  In the order result id, reason,
length/duration, audio bytes (the last one is issued only for a positive
length), the first query that fails ends the construction with its status code,
and the native calls made stop with that query: after a failing result-id query
there is no reason, length/duration or audio-bytes query, and no object. -/
theorem C6_fail_fast (api : NativeApi) (h : SPXRESULTHANDLE) :
    (api.SPX_FAILED (api.synth_result_get_result_id h maxCharCount).1 = true →
        construct api h =
          ([NativeCall.synth_result_get_property_bag h,
            NativeCall.synth_result_get_result_id h maxCharCount],
           Except.error (api.synth_result_get_result_id h maxCharCount).1))
    ∧ (api.SPX_FAILED (api.synth_result_get_result_id h maxCharCount).1 = false →
       api.SPX_FAILED (api.synth_result_get_reason h).1 = true →
        construct api h =
          ([NativeCall.synth_result_get_property_bag h,
            NativeCall.synth_result_get_result_id h maxCharCount,
            NativeCall.synth_result_get_reason h],
           Except.error (api.synth_result_get_reason h).1))
    ∧ (api.SPX_FAILED (api.synth_result_get_result_id h maxCharCount).1 = false →
       api.SPX_FAILED (api.synth_result_get_reason h).1 = false →
       api.SPX_FAILED (api.synth_result_get_audio_length_duration h).1 = true →
        construct api h =
          ([NativeCall.synth_result_get_property_bag h,
            NativeCall.synth_result_get_result_id h maxCharCount,
            NativeCall.synth_result_get_reason h,
            NativeCall.synth_result_get_audio_length_duration h],
           Except.error (api.synth_result_get_audio_length_duration h).1))
    ∧ (api.SPX_FAILED (api.synth_result_get_result_id h maxCharCount).1 = false →
       api.SPX_FAILED (api.synth_result_get_reason h).1 = false →
       api.SPX_FAILED (api.synth_result_get_audio_length_duration h).1 = false →
       0 < audioLengthOf api h →
       api.SPX_FAILED (api.synth_result_get_audio_data h (audioLengthOf api h)).1 = true →
        construct api h =
          ([NativeCall.synth_result_get_property_bag h,
            NativeCall.synth_result_get_result_id h maxCharCount,
            NativeCall.synth_result_get_reason h,
            NativeCall.synth_result_get_audio_length_duration h,
            NativeCall.synth_result_get_audio_data h (audioLengthOf api h)],
           Except.error (api.synth_result_get_audio_data h (audioLengthOf api h)).1)) := by
  rw [construct_eq]
  refine ⟨?_, ?_, ?_, ?_⟩
  · intro h1
    simp only [h1, if_true]
  · intro h1 h2
    simp [h1, h2]
  · intro h1 h2 h3
    simp [h1, h2, h3]
  · intro h1 h2 h3 h4 h5
    simp [h1, h2, h3, h4, h5]

/-- On the handle whose result-id query fails with code 5, the constructor fails
with code 5 after the property-bag retrieval and the result-id query alone. -/
theorem C6_fail_fast_witness :
    construct idFailsApi 7 =
      ([NativeCall.synth_result_get_property_bag 7,
        NativeCall.synth_result_get_result_id 7 1024],
       Except.error 5) :=
  (C6_fail_fast idFailsApi 7).1 rfl

/-! ## Release of the handle -/

/-- The accessors make no native call. -/
theorem accessorTrace_nil (self : SpeechSynthesisResult) (calls : List Accessor) :
    accessorTrace self calls = [] := by
  induction calls with
  | nil => rfl
  | cons a rest ih =>
    cases a <;> simp [accessorTrace, SpeechSynthesisResult.call, ih]

/-- The constructor never releases a handle. -/
theorem construct_no_release (api : NativeApi) (h : SPXRESULTHANDLE) :
    (construct api h).1.countP isRelease = 0 := by
  rw [construct_eq]
  split_ifs <;> simp [isRelease]

/-- A constructed object holds the handle it was constructed from. -/
theorem construct_handle (api : NativeApi) (h : SPXRESULTHANDLE)
    (self : SpeechSynthesisResult) (hok : (construct api h).2 = Except.ok self) :
    self.m_hresult = h := by
  rw [construct_eq] at hok
  split_ifs at hok <;> simp at hok <;> subst hok <;> rfl

/-- C7: when the constructor succeeds, the native calls of the whole lifetime
(construction, any sequence of `GetAudioLength` / `GetAudioData` / handle
conversion calls, destruction) are those of the constructor followed by one
release of the handle, made by the destructor: the constructor and the accessors
release nothing, and the release of the handle occurs exactly once. -/
theorem C7_release_exactly_once (api : NativeApi) (h : SPXRESULTHANDLE)
    (calls : List Accessor) (self : SpeechSynthesisResult)
    (hok : (construct api h).2 = Except.ok self) :
    lifetime api h calls
        = (construct api h).1 ++ accessorTrace self calls ++ self.destroy
      ∧ (construct api h).1.countP isRelease = 0
      ∧ accessorTrace self calls = []
      ∧ self.destroy = [NativeCall.synthesizer_result_handle_release h]
      ∧ (lifetime api h calls).countP isRelease = 1
      ∧ (lifetime api h calls).count (NativeCall.synthesizer_result_handle_release h) = 1 := by
  have hh := construct_handle api h self hok
  have hnr := construct_no_release api h
  have hacc := accessorTrace_nil self calls
  have hlife : lifetime api h calls
      = (construct api h).1 ++ accessorTrace self calls ++ self.destroy := by
    unfold lifetime
    rcases hc : construct api h with ⟨t, r⟩
    rw [hc] at hok
    simp only at hok
    subst hok
    rfl
  have hdes : self.destroy = [NativeCall.synthesizer_result_handle_release h] := by
    simp [SpeechSynthesisResult.destroy, hh]
  refine ⟨hlife, hnr, hacc, hdes, ?_, ?_⟩
  · rw [hlife, hacc, hdes]
    simp [List.countP_append, hnr, isRelease]
  · rw [hlife, hacc, hdes]
    have hz : (construct api h).1.count (NativeCall.synthesizer_result_handle_release h) = 0 := by
      rw [List.count_eq_zero]
      intro hmem
      have hpos : 0 < (construct api h).1.countP isRelease :=
        List.countP_pos_iff.mpr ⟨_, hmem, rfl⟩
      omega
    simp [List.count_append, hz]

/-- The scenario of the specification, with three accessor calls: the lifetime
ends with the only release of handle 7. -/
theorem C7_release_exactly_once_witness :
    (lifetime scenarioApi 7
        [Accessor.GetAudioLength, Accessor.GetAudioData, Accessor.toSPXRESULTHANDLE]).countP
          isRelease = 1
      ∧ (lifetime scenarioApi 7
        [Accessor.GetAudioLength, Accessor.GetAudioData, Accessor.toSPXRESULTHANDLE]).count
          (NativeCall.synthesizer_result_handle_release 7) = 1 :=
  (C7_release_exactly_once scenarioApi 7
    [Accessor.GetAudioLength, Accessor.GetAudioData, Accessor.toSPXRESULTHANDLE] _ rfl).2.2.2.2

/-- C8 fails on the code: on the handle whose result-id query fails with code 5
the constructor throws after `m_hresult` was initialised, the destructor is
therefore never run, and the native calls of the whole lifetime are the
property-bag retrieval and the result-id query: the handle is released zero
times, not once. -/
theorem C8_failed_construction_never_releases :
    (construct idFailsApi 7).2 = Except.error 5
      ∧ lifetime idFailsApi 7 [] =
          [NativeCall.synth_result_get_property_bag 7,
           NativeCall.synth_result_get_result_id 7 1024]
      ∧ (lifetime idFailsApi 7 []).countP isRelease = 0
      ∧ (lifetime idFailsApi 7 []).count (NativeCall.synthesizer_result_handle_release 7) = 0 :=
  ⟨rfl, rfl, by decide, by decide⟩

/-! ## Order of the native queries -/

/-- C9, as stated, fails: in the scenario of the specification the constructor
succeeds and its first native call is the property-bag retrieval, not the last
one. -/
theorem C9_counterexample_property_bag_first :
    (∃ self, (construct scenarioApi 7).2 = Except.ok self)
      ∧ (construct scenarioApi 7).1 ≠ specQueryOrder scenarioApi 7
      ∧ (construct scenarioApi 7).1 =
          [NativeCall.synth_result_get_property_bag 7,
           NativeCall.synth_result_get_result_id 7 1024,
           NativeCall.synth_result_get_reason 7,
           NativeCall.synth_result_get_audio_length_duration 7,
           NativeCall.synth_result_get_audio_data 7 4] :=
  ⟨⟨_, rfl⟩, by decide, rfl⟩

/-- C9 (amended): when the constructor succeeds, the native queries it issued
are exactly: property-bag retrieval, then result id, then reason, then audio
length/duration, then audio bytes (present only if the length is positive), each
once and in that order. -/
theorem C9_query_order (api : NativeApi) (h : SPXRESULTHANDLE)
    (self : SpeechSynthesisResult) (hok : (construct api h).2 = Except.ok self) :
    (construct api h).1 = codeQueryOrder api h := by
  rw [construct_eq] at hok ⊢
  unfold codeQueryOrder
  split_ifs at hok ⊢ <;> simp at hok ⊢

/-- A handle with no audio: the constructor issues four queries, the
property-bag retrieval first. -/
theorem C9_query_order_witness :
    (construct emptyAudioApi 7).1 =
      [NativeCall.synth_result_get_property_bag 7,
       NativeCall.synth_result_get_result_id 7 1024,
       NativeCall.synth_result_get_reason 7,
       NativeCall.synth_result_get_audio_length_duration 7] :=
  C9_query_order emptyAudioApi 7 _ rfl

/-! ## Short fill -/

/-- C10, as stated, fails: a handle reports four bytes of audio, and its
audio-bytes query returns success, reports a filled count of 2 and writes three
bytes.  The constructor succeeds with the buffer `[1, 2, 3, 0]`: its first two
bytes are not all the native query wrote, and the two bytes behind them are not
both zero. -/
theorem C10_counterexample_filled_count_not_read :
    ∃ self, (construct overFillApi 7).2 = Except.ok self
      ∧ overFillApi.SPX_FAILED (overFillApi.synth_result_get_audio_data 7 4).1 = false
      ∧ (overFillApi.synth_result_get_audio_data 7 4).2.2 = some 2
      ∧ (overFillApi.synth_result_get_audio_data 7 4).2.1 = [1, 2, 3]
      ∧ self.GetAudioLength = 4
      ∧ self.GetAudioData = [1, 2, 3, 0]
      ∧ self.GetAudioData.take 2 ≠ (overFillApi.synth_result_get_audio_data 7 4).2.1
      ∧ self.GetAudioData.drop 2 ≠ List.replicate (4 - 2) 0 :=
  ⟨_, rfl, rfl, rfl, rfl, rfl, rfl, by decide, by decide⟩

/-- C10 (amended): a short fill is not validated.  When the id, reason and
length/duration queries succeed, the reported length is `L` (a `uint32_t`
value), and the audio-bytes query returns success while reporting a filled count
`f < L`, the constructor succeeds, `GetAudioLength()` is `L`, and
`GetAudioData()` is the bytes the query wrote (cut at `L`) followed by zeros up
to `L` bytes; the filled count is never read.  When the bytes written are `f`
in number, the first `f` bytes of `GetAudioData()` are these bytes and the other
`L - f` are zero. -/
theorem C10_short_fill_not_validated (api : NativeApi) (h : SPXRESULTHANDLE) (L f : Nat)
    (hid : api.SPX_FAILED (api.synth_result_get_result_id h maxCharCount).1 = false)
    (hreason : api.SPX_FAILED (api.synth_result_get_reason h).1 = false)
    (hld : api.SPX_FAILED (api.synth_result_get_audio_length_duration h).1 = false)
    (hlen : (api.synth_result_get_audio_length_duration h).2.1 = some L)
    (hu32 : L < UINT32_SIZE)
    (had : api.SPX_FAILED (api.synth_result_get_audio_data h L).1 = false)
    (_hfilled : (api.synth_result_get_audio_data h L).2.2 = some f)
    (hshort : f < L) :
    ∃ self, (construct api h).2 = Except.ok self
      ∧ self.GetAudioLength = L
      ∧ self.GetAudioData
          = (api.synth_result_get_audio_data h L).2.1.take L
            ++ List.replicate (L - (api.synth_result_get_audio_data h L).2.1.length) 0
      ∧ ((api.synth_result_get_audio_data h L).2.1.length = f →
          self.GetAudioData.take f = (api.synth_result_get_audio_data h L).2.1
          ∧ self.GetAudioData.drop f = List.replicate (L - f) 0) := by
  have hL : audioLengthOf api h = L := by
    unfold audioLengthOf
    rw [hlen]
    exact Nat.mod_eq_of_lt hu32
  have hpos : 0 < L := by omega
  rw [construct_eq]
  simp only [hid, hreason, hld, hL, hpos, had]
  refine ⟨_, rfl, ?_, ?_, ?_⟩
  · simp only [SpeechSynthesisResult.GetAudioLength, writeBuffer_length, make_vector,
      List.length_replicate]
    exact Nat.mod_eq_of_lt hu32
  · simp only [SpeechSynthesisResult.GetAudioData]
    exact writeBuffer_zeroed L _
  · intro hwritten
    have hbuf := writeBuffer_short L (api.synth_result_get_audio_data h L).2.1 (by omega)
    rw [hwritten] at hbuf
    constructor
    · simp only [SpeechSynthesisResult.GetAudioData, hbuf]
      rw [← hwritten]
      simp
    · simp only [SpeechSynthesisResult.GetAudioData, hbuf]
      rw [List.drop_append_of_le_length (by omega)]
      simp [hwritten]

/-- A handle that reports four bytes and fills two: the object has length 4 and
holds the two bytes written followed by two zero bytes. -/
theorem C10_short_fill_not_validated_witness :
    ∃ self, (construct shortFillApi 7).2 = Except.ok self
      ∧ self.GetAudioLength = 4
      ∧ self.GetAudioData = [1, 2, 0, 0]
      ∧ self.GetAudioData.take 2 = [1, 2]
      ∧ self.GetAudioData.drop 2 = [0, 0] :=
  let ⟨self, hok, hlen, hdata, hfill⟩ :=
    C10_short_fill_not_validated shortFillApi 7 4 2 rfl rfl rfl rfl (by decide) rfl rfl
      (by decide)
  ⟨self, hok, hlen, hdata, hfill rfl⟩

end SpeechSynthesis
